import Mathlib

/-!
Shallow embedding of `src/src/services/simulationEngine.js` from the
adversarial-x repository, together with theorems settling the frozen claims
about the simulation engine.

Modelling conventions:
* JavaScript numbers are modelled as exact rationals (`ℚ`); `Math.floor` is
  `Int.floor`, `Math.round` is floor of `x + 1/2`.
* The trigonometric hash `seededRandom(seed) = frac(sin(seed*12.9898+78.233)
  * 43758.5453)` is transcendental, so the engine is parameterised by an
  abstract generator `rand : ℤ → ℚ` standing for that function.  None of the
  results below depend on the concrete hash values.
* The module-level mutable `state` object is threaded explicitly as a
  `SimState` value.
* JavaScript exceptions are modelled with `Except`: a thrown exception
  unwinds past the remaining statements, but every mutation of the
  module-level `state` already performed persists, so each operation returns
  the state as mutated up to the point of the throw, paired with the outcome.
  This matters because the `sort` comparator on line 129 of the source reads
  the undeclared variable `i`, raising a `ReferenceError` whenever it runs.
-/

namespace AdversarialX

/-- Abstract stand-in for `seededRandom`, the deterministic trigonometric
hash driving the whole simulation. -/
abbrev Rand := ℤ → ℚ

/-- The fixed label vocabulary `IMAGENET_CLASSES` (24 entries). -/
def IMAGENET_CLASSES : List String :=
  ["tench", "goldfish", "great white shark", "hammerhead", "electric ray", "stingray",
   "cock", "hen", "ostrich", "brambling", "goldfinch", "house finch", "junco",
   "indigo bunting", "robin", "bulbul", "jay", "magpie", "chickadee", "water ouzel",
   "kite", "bald eagle", "vulture", "great grey owl"]

/-- One entry of `ATTACK_CONFIGS`. -/
structure AttackConfig where
  name : String
  fullName : String
  description : String
  baseSuccessRate : ℚ
  baseConfidenceDrop : ℚ
  perturbationMultiplier : ℚ
  iterations : ℕ
  speed : String
deriving DecidableEq

def fgsmConfig : AttackConfig :=
  ⟨"FGSM", "Fast Gradient Sign Method", "Single-step gradient-based attack",
   0.75, 25, 1.0, 1, "fast"⟩

def pgdConfig : AttackConfig :=
  ⟨"PGD", "Projected Gradient Descent", "Iterative attack with projection",
   0.88, 35, 1.2, 10, "medium"⟩

def cwConfig : AttackConfig :=
  ⟨"C&W", "Carlini & Wagner L2", "Optimization-based attack",
   0.92, 40, 0.8, 20, "slow"⟩

def deepfoolConfig : AttackConfig :=
  ⟨"DeepFool", "DeepFool", "Minimal perturbation attack",
   0.68, 18, 0.5, 1, "fast"⟩

/-- Keyed lookup into `ATTACK_CONFIGS`. -/
def ATTACK_CONFIGS (k : String) : Option AttackConfig :=
  if k = "fgsm" then some fgsmConfig
  else if k = "pgd" then some pgdConfig
  else if k = "cw" then some cwConfig
  else if k = "deepfool" then some deepfoolConfig
  else none

/-- Models the source idiom `ATTACK_CONFIGS[state.currentAttack] ||
ATTACK_CONFIGS.fgsm`. -/
def getAttackConfig (k : String) : AttackConfig :=
  (ATTACK_CONFIGS k).getD fgsmConfig

/-- One entry of `DEFENSE_CONFIGS`. -/
structure DefenseConfig where
  name : String
  description : String
  baseEffectiveness : ℚ
  overhead : ℚ
  color : String
deriving DecidableEq

def adversarialTrainingConfig : DefenseConfig :=
  ⟨"Adversarial Training", "Trains on adversarial examples", 0.78, 2.3, "#6366f1"⟩

def inputPreprocessingConfig : DefenseConfig :=
  ⟨"Input Preprocessing", "Filters and transforms input", 0.45, 0.5, "#22c55e"⟩

def defensiveDistillationConfig : DefenseConfig :=
  ⟨"Defensive Distillation", "Reduces model sensitivity", 0.62, 1.8, "#f59e0b"⟩

def featureSqueezingConfig : DefenseConfig :=
  ⟨"Feature Squeezing", "Reduces input complexity", 0.55, 0.8, "#06b6d4"⟩

/-- The four defense toggles of `state.defenses`, in declaration order. -/
structure Defenses where
  adversarialTraining : Bool
  inputPreprocessing : Bool
  defensiveDistillation : Bool
  featureSqueezing : Bool
deriving DecidableEq, Fintype

/-- One point of `state.confidenceHistory`. -/
structure HistoryEntry where
  time : ℕ
  value : ℚ
  attack : String
  success : Bool
deriving DecidableEq

/-- One entry of `state.attackLog`.  `time` is the `Date.now()` wall-clock
stamp, supplied as an explicit parameter of the step operation. -/
structure LogEntry where
  type : String
  message : String
  time : ℤ
deriving DecidableEq

/-- Return value of `generatePrediction`: the top label/confidence plus the
alternative labels with synthetic confidences. -/
structure Prediction where
  topLabel : String
  topConfidence : ℚ
  alternatives : List (String × ℚ)
deriving DecidableEq

/-- The `all` field of a generated prediction: top entry followed by the
alternatives. -/
def Prediction.all (p : Prediction) : List (String × ℚ) :=
  (p.topLabel, p.topConfidence) :: p.alternatives

/-- JavaScript runtime errors raised by the engine.  The only one that can
occur is the `ReferenceError` for the undeclared identifier named by the
payload. -/
inductive JsError
  | referenceError (name : String)
deriving DecidableEq

/-- The module-level `state` object. -/
structure SimState where
  currentConfidence : ℚ
  baseConfidence : ℚ
  confidenceHistory : List HistoryEntry
  attackCount : ℕ
  successCount : ℕ
  perturbationLevel : ℚ
  currentAttack : String
  isRunning : Bool
  defenses : Defenses
  currentPrediction : Option Prediction
  adversarialPrediction : Option Prediction
  predictions : List (String × ℚ)
  attackedNodes : Finset (ℤ × ℤ)
  attackLog : List LogEntry
  seed : ℤ
deriving DecidableEq

/-- The initial value of the module-level `state` object. -/
def initState : SimState :=
  { currentConfidence := 97.2, baseConfidence := 97.2, confidenceHistory := [],
    attackCount := 0, successCount := 0, perturbationLevel := 0.03,
    currentAttack := "fgsm", isRunning := false,
    defenses := ⟨false, true, false, true⟩,
    currentPrediction := none, adversarialPrediction := none, predictions := [],
    attackedNodes := ∅, attackLog := [], seed := 42 }

/-- Models `generatePrediction(seed, isAdversarial)`.  The `sort` comparator
`() => seededRandom(seed + i + 2) - 0.5` reads the undeclared variable `i`,
so as soon as the comparator is invoked (which happens exactly when the
filtered list has at least two elements) the call raises a `ReferenceError`.
The ok branch models the residual behaviour for lists too short for the
comparator to run. -/
def generatePrediction (rand : Rand) (seed : ℤ) (isAdversarial : Bool) :
    Except JsError Prediction :=
  let r := rand seed
  let baseIdx : ℤ := ⌊r * (IMAGENET_CLASSES.length : ℚ)⌋
  let confidence : ℚ :=
    if isAdversarial then 20 + rand (seed + 1) * 50 else 85 + rand (seed + 1) * 14
  let filtered :=
    (IMAGENET_CLASSES.enum.filter (fun p => (p.1 : ℤ) ≠ baseIdx)).map (fun p => p.2)
  if 2 ≤ filtered.length then
    Except.error (JsError.referenceError "i")
  else
    let alts := (filtered.take 4).enum.map (fun p =>
      (p.2, max 1 ((confidence - 15 - (p.1 : ℚ) * 8) + rand (seed + (p.1 : ℤ) + 10) * 5)))
    Except.ok ⟨IMAGENET_CLASSES.getD baseIdx.toNat "", confidence, alts⟩

/-- Models `getDefenseMultiplier()`: iterate `Object.keys(state.defenses)` in
declaration order, multiplying in `(1 - baseEffectiveness * 0.4)` for every
enabled defense; the `DEFENSE_CONFIGS[key]` lookup always succeeds for these
four keys, so the display-name fallback branch of the source is dead.  The
result is floored at `0.1`. -/
def getDefenseMultiplier (d : Defenses) : ℚ :=
  let m : ℚ := 1.0
  let m := if d.adversarialTraining then
    m * (1 - adversarialTrainingConfig.baseEffectiveness * 0.4) else m
  let m := if d.inputPreprocessing then
    m * (1 - inputPreprocessingConfig.baseEffectiveness * 0.4) else m
  let m := if d.defensiveDistillation then
    m * (1 - defensiveDistillationConfig.baseEffectiveness * 0.4) else m
  let m := if d.featureSqueezing then
    m * (1 - featureSqueezingConfig.baseEffectiveness * 0.4) else m
  max 0.1 m

/-- Models `calculateAttackEffectiveness()`. -/
def calculateAttackEffectiveness (s : SimState) : ℚ :=
  let attackConfig := getAttackConfig s.currentAttack
  let defenseMultiplier := getDefenseMultiplier s.defenses
  let epsilonMultiplier := min (s.perturbationLevel / 0.03) 3
  min 0.98 (attackConfig.baseSuccessRate * defenseMultiplier * min epsilonMultiplier 2)

/-- Models `calculateConfidenceDrop()`. -/
def calculateConfidenceDrop (s : SimState) : ℚ :=
  let attackConfig := getAttackConfig s.currentAttack
  let defenseMultiplier := getDefenseMultiplier s.defenses
  let epsilonMultiplier := min (s.perturbationLevel / 0.03) 2
  min (s.currentConfidence - 10)
    (attackConfig.baseConfidenceDrop * defenseMultiplier * epsilonMultiplier)

/-- The fixed layer topology `[4, 8, 8, 6, 3]`. -/
def layerSizes : List ℤ := [4, 8, 8, 6, 3]

/-- Models `updateAttackedNodes()`.  Node keys ``li-ni`` are represented as
the integer pair `(li, ni)` (the string encoding of two integers is
injective).  `layers[li]` for an out-of-range `li` is modelled with default
`0`; it only arises when the generator leaves `[0, 1)`. -/
def updateAttackedNodes (rand : Rand) (s : SimState) : SimState :=
  if 80 < s.currentConfidence then { s with attackedNodes := ∅ }
  else
    let numAttacked := (⌊(1 - s.currentConfidence / 100) * 25 + 5⌋).toNat
    let nodes := (List.range numAttacked).foldl (fun acc i =>
      let li : ℤ := ⌊rand (s.seed + (i : ℤ)) * 5⌋
      let nodeCount : ℤ := layerSizes.getD li.toNat 0
      let ni : ℤ := ⌊rand (s.seed + (i : ℤ) + 10) * (nodeCount : ℚ)⌋
      insert (li, ni) acc) (∅ : Finset (ℤ × ℤ))
    { s with attackedNodes := nodes }

/-- Models JavaScript `Number.prototype.toFixed(1)` on the exact rational:
one digit after the decimal point, rounding to nearest with ties upward (the
engine only ever formats nonnegative confidences, and the formatted string is
presentation-only). -/
def toFixed1 (q : ℚ) : String :=
  let n : ℤ := ⌊q * 10 + 1 / 2⌋
  toString (n / 10) ++ "." ++ toString (n % 10)

/-- The record returned by a completed `runAttack()` call. -/
structure AttackResult where
  success : Bool
  confidenceDrop : ℚ
  newConfidence : ℚ
  predictions : List (String × ℚ)
  originalPrediction : String × ℚ
  adversarialPrediction : String × ℚ
  attackType : String
  perturbationLevel : ℚ
  attackConfig : AttackConfig
deriving DecidableEq

/-- Models `runAttack()` — the step operation.  `now` is the `Date.now()`
value observed by the log-entry construction.  A thrown exception leaves the
mutations already applied to `state` in place, so the returned state reflects
everything up to the point of the throw. -/
def runAttack (rand : Rand) (now : ℤ) (s : SimState) :
    SimState × Except JsError AttackResult :=
  let s1 := { s with seed := s.seed + 1, attackCount := s.attackCount + 1 }
  let attackConfig := getAttackConfig s1.currentAttack
  let effectiveness := calculateAttackEffectiveness s1
  let confidenceDrop := calculateConfidenceDrop s1
  let success : Bool := rand s1.seed < effectiveness
  let oldConfidence := s1.currentConfidence
  let s2 :=
    if success then
      { s1 with currentConfidence := max 15 (s1.currentConfidence - confidenceDrop),
                successCount := s1.successCount + 1 }
    else
      { s1 with currentConfidence := min 99 (s1.currentConfidence - confidenceDrop * 0.3) }
  let pushed := s2.confidenceHistory ++
    [⟨s2.attackCount, min 100 s2.currentConfidence, s2.currentAttack, success⟩]
  let s3 := { s2 with confidenceHistory := if 60 < pushed.length then pushed.tail else pushed }
  match generatePrediction rand s3.seed false with
  | Except.error e => (s3, Except.error e)
  | Except.ok currentPred =>
    let s4 := { s3 with currentPrediction := some currentPred }
    match generatePrediction rand (s3.seed + 1000) true with
    | Except.error e => (s4, Except.error e)
    | Except.ok advPred =>
      let s5 := { s4 with adversarialPrediction := some advPred,
                          predictions := advPred.all }
      let s6 := updateAttackedNodes rand s5
      let logEntry : LogEntry :=
        ⟨if success then "danger" else "info",
         attackConfig.name ++ ": " ++ currentPred.topLabel ++ " → " ++ advPred.topLabel
           ++ " (" ++ toFixed1 s6.currentConfidence ++ "%)", now⟩
      let s7 := { s6 with attackLog := (logEntry :: s6.attackLog).take 15 }
      (s7, Except.ok
        { success := success, confidenceDrop := s7.currentConfidence - oldConfidence,
          newConfidence := s7.currentConfidence, predictions := s7.predictions,
          originalPrediction := (currentPred.topLabel, currentPred.topConfidence),
          adversarialPrediction := (advPred.topLabel, advPred.topConfidence),
          attackType := s7.currentAttack, perturbationLevel := s7.perturbationLevel,
          attackConfig := attackConfig })

/-- Models `toggleDefense(name)`: the `keyMap` is keyed on the four display
names; any other argument hits the `return false` fallback with no state
change. -/
def toggleDefense (name : String) (s : SimState) : SimState × Bool :=
  if name = "Adversarial Training" then
    let v := !s.defenses.adversarialTraining
    ({ s with defenses := { s.defenses with adversarialTraining := v } }, v)
  else if name = "Input Preprocessing" then
    let v := !s.defenses.inputPreprocessing
    ({ s with defenses := { s.defenses with inputPreprocessing := v } }, v)
  else if name = "Defensive Distillation" then
    let v := !s.defenses.defensiveDistillation
    ({ s with defenses := { s.defenses with defensiveDistillation := v } }, v)
  else if name = "Feature Squeezing" then
    let v := !s.defenses.featureSqueezing
    ({ s with defenses := { s.defenses with featureSqueezing := v } }, v)
  else (s, false)

/-- Models `setAttackType(attackType)`. -/
def setAttackType (attackType : String) (s : SimState) : SimState :=
  if (ATTACK_CONFIGS attackType).isSome then { s with currentAttack := attackType } else s

/-- Models `setEpsilon(epsilon)`. -/
def setEpsilon (epsilon : ℚ) (s : SimState) : SimState :=
  { s with perturbationLevel := max 0.001 (min 0.1 epsilon) }

/-- Models `resetSimulation()`.  The first `generatePrediction(42, false)`
call raises, so in every actual run the function returns after resetting the
counters but before touching the prediction fields. -/
def resetSimulation (rand : Rand) (s : SimState) : SimState × Except JsError Unit :=
  let s1 := { s with currentConfidence := 97.2, confidenceHistory := [],
                     attackCount := 0, successCount := 0, seed := 42,
                     attackedNodes := (∅ : Finset (ℤ × ℤ)), attackLog := [] }
  match generatePrediction rand 42 false with
  | Except.error e => (s1, Except.error e)
  | Except.ok initial =>
    let s2 := { s1 with currentPrediction := some initial }
    match generatePrediction rand 142 true with
    | Except.error e => (s2, Except.error e)
    | Except.ok adv =>
      ({ s2 with adversarialPrediction := some adv, predictions := initial.all },
       Except.ok ())

/-- JavaScript `Math.round`: round half toward positive infinity. -/
def jsRound (q : ℚ) : ℤ := ⌊q + 1 / 2⌋

/-- The record returned by `getStatistics()`. -/
structure Statistics where
  successRate : ℤ
  attackCount : ℕ
  successCount : ℕ
  perturbation : ℤ
  maxPerturbation : ℚ
  defenseEffectiveness : ℤ
  currentEpsilon : ℚ
deriving DecidableEq

/-- Models `getStatistics()`. -/
def getStatistics (s : SimState) : Statistics :=
  { successRate :=
      if 0 < s.attackCount then jsRound ((s.successCount : ℚ) / (s.attackCount : ℚ) * 100)
      else 0,
    attackCount := s.attackCount, successCount := s.successCount,
    perturbation := jsRound (s.perturbationLevel * 255),
    maxPerturbation := 25.5,
    defenseEffectiveness := jsRound ((1 - getDefenseMultiplier s.defenses) * 100),
    currentEpsilon := s.perturbationLevel }

/-- One row of `getDefenseMetrics()`. -/
structure DefenseMetric where
  name : String
  effectiveness : ℕ
  overhead : ℚ
  enabled : Bool
deriving DecidableEq

/-- Models `getDefenseMetrics()`. -/
def getDefenseMetrics (s : SimState) : List DefenseMetric :=
  [⟨"Adversarial Training", 78, 2.3, s.defenses.adversarialTraining⟩,
   ⟨"Input Preprocessing", 45, 0.5, s.defenses.inputPreprocessing⟩,
   ⟨"Defensive Distillation", 62, 1.8, s.defenses.defensiveDistillation⟩,
   ⟨"Feature Squeezing", 55, 0.8, s.defenses.featureSqueezing⟩]

/-- One node of the `getNeuralNetworkState()` layout. -/
structure NodeView where
  x : ℚ
  y : ℚ
  isAttacked : Bool
deriving DecidableEq

/-- Models `getNeuralNetworkState()`. -/
def getNeuralNetworkState (s : SimState) : List (List NodeView) :=
  let layerSpacing : ℚ := 600 / ((layerSizes.length : ℚ) + 1)
  layerSizes.enum.map (fun li =>
    let x := layerSpacing * ((li.1 : ℚ) + 1)
    (List.range li.2.toNat).map (fun (i : ℕ) =>
      ⟨x, (300 / ((li.2 : ℚ) + 1)) * ((i : ℚ) + 1),
       ((li.1 : ℤ), (i : ℤ)) ∈ s.attackedNodes⟩))

/-- Snapshot returned by a completed `initialize()` call. -/
structure Snapshot where
  confidence : ℚ
  predictions : List (String × ℚ)
  originalPrediction : Option (String × ℚ)
  statistics : Statistics
  defenses : List DefenseMetric
  neuralNetwork : List (List NodeView)
deriving DecidableEq

/-- Models `initialize()`: reset, then assemble the snapshot.  An exception
raised inside `resetSimulation` propagates. -/
def initEngine (rand : Rand) (s : SimState) : SimState × Except JsError Snapshot :=
  match resetSimulation rand s with
  | (s1, Except.error e) => (s1, Except.error e)
  | (s1, Except.ok _) =>
    (s1, Except.ok
      { confidence := s1.currentConfidence, predictions := s1.predictions,
        originalPrediction := s1.currentPrediction.map (fun p => (p.topLabel, p.topConfidence)),
        statistics := getStatistics s1, defenses := getDefenseMetrics s1,
        neuralNetwork := getNeuralNetworkState s1 })

/-- The caller-facing operations that mutate the engine. -/
inductive Op
  | initOp
  | setAttackTypeOp (id : String)
  | setEpsilonOp (v : ℚ)
  | toggleDefenseOp (id : String)
  | stepOp (now : ℤ)

/-- State transition of a single operation (discarding return values). -/
def applyOp (rand : Rand) (s : SimState) : Op → SimState
  | Op.initOp => (initEngine rand s).1
  | Op.setAttackTypeOp id => setAttackType id s
  | Op.setEpsilonOp v => setEpsilon v s
  | Op.toggleDefenseOp id => (toggleDefense id s).1
  | Op.stepOp now => (runAttack rand now s).1

/-- Drive the engine through a sequence of operations. -/
def runOps (rand : Rand) (ops : List Op) (s : SimState) : SimState :=
  ops.foldl (applyOp rand) s

/-- A state is reachable when some sequence of operations produces it from
the initial module state. -/
def Reachable (rand : Rand) (s : SimState) : Prop :=
  ∃ ops : List Op, s = runOps rand ops initState

/-- The state produced by `runAttack()` up to the point where the first
`generatePrediction` call throws: seed and attack counter bumped, success
drawn, confidence updated, history point pushed and possibly evicted.
Everything past this point in the source never executes. -/
def stepState (rand : Rand) (s : SimState) : SimState :=
  let s1 := { s with seed := s.seed + 1, attackCount := s.attackCount + 1 }
  let confidenceDrop := calculateConfidenceDrop s1
  let success : Bool := rand s1.seed < calculateAttackEffectiveness s1
  let s2 :=
    if success then
      { s1 with currentConfidence := max 15 (s1.currentConfidence - confidenceDrop),
                successCount := s1.successCount + 1 }
    else
      { s1 with currentConfidence := min 99 (s1.currentConfidence - confidenceDrop * 0.3) }
  let pushed := s2.confidenceHistory ++
    [⟨s2.attackCount, min 100 s2.currentConfidence, s2.currentAttack, success⟩]
  { s2 with confidenceHistory := if 60 < pushed.length then pushed.tail else pushed }

/-- Success draw of a step: the generator value for the incremented seed is
strictly below the attack effectiveness. -/
def stepSuccess (rand : Rand) (s : SimState) : Bool :=
  rand (s.seed + 1) < calculateAttackEffectiveness s

/-- Confidence after one step: on success clamp below by 15 after the full
drop, on failure clamp above by 99 after 30 percent of the drop. -/
def stepConfidence (rand : Rand) (s : SimState) : ℚ :=
  if stepSuccess rand s then max 15 (s.currentConfidence - calculateConfidenceDrop s)
  else min 99 (s.currentConfidence - calculateConfidenceDrop s * 0.3)

/-- History point pushed by one step. -/
def stepEntry (rand : Rand) (s : SimState) : HistoryEntry :=
  ⟨s.attackCount + 1, min 100 (stepConfidence rand s), s.currentAttack, stepSuccess rand s⟩

/-- Confidence history after one step: push at the end, evict the oldest
entry when the length would exceed 60. -/
def stepHistory (rand : Rand) (s : SimState) : List HistoryEntry :=
  let pushed := s.confidenceHistory ++ [stepEntry rand s]
  if 60 < pushed.length then pushed.tail else pushed

/-- Inductive invariant of the engine state: confidence within bounds,
perturbation level within its clamped domain, history bounded. -/
def EngineInv (s : SimState) : Prop :=
  5 ≤ s.currentConfidence ∧ s.currentConfidence ≤ 100 ∧
  1 / 1000 ≤ s.perturbationLevel ∧ s.perturbationLevel ≤ 1 / 10 ∧
  s.confidenceHistory.length ≤ 60

/-- Observable view after one operation: the data the determinism contract
talks about (confidence history, attacked-node set) plus the step outcome
when the operation was a `step()`. -/
structure StepView where
  confidence : ℚ
  history : List HistoryEntry
  attacked : Finset (ℤ × ℤ)
  outcome : Option (Except JsError AttackResult)

/-- Drive the engine through a sequence of operations, recording the
observable view after each one. -/
def runTrace (rand : Rand) : List Op → SimState → List StepView
  | [], _ => []
  | op :: rest, s =>
    let next := applyOp rand s op
    let out : Option (Except JsError AttackResult) :=
      match op with
      | Op.stepOp now => some (runAttack rand now s).2
      | _ => none
    ⟨next.currentConfidence, next.confidenceHistory, next.attackedNodes, out⟩ ::
      runTrace rand rest next

/-- The list that `generatePrediction` sorts always keeps at least two of the
24 vocabulary entries, whatever index the seed hashes to, so the throwing
comparator always runs. -/
theorem two_le_filtered (b : ℤ) :
    2 ≤ ((IMAGENET_CLASSES.enum.filter (fun p => (p.1 : ℤ) ≠ b)).map
      (fun p => p.2)).length := by
  rw [List.length_map]
  rcases eq_or_ne b 0 with rfl | hb0
  · decide
  rcases eq_or_ne b 1 with rfl | hb1
  · decide
  have h0 : (fun p : ℕ × String => decide ((p.1 : ℤ) ≠ b)) (0, "tench") = true := by
    simp; omega
  have h1 : (fun p : ℕ × String => decide ((p.1 : ℤ) ≠ b)) (1, "goldfish") = true := by
    simp; omega
  rw [show IMAGENET_CLASSES.enum = (0, "tench") :: (1, "goldfish") ::
      (List.enumFrom 2 ["great white shark", "hammerhead", "electric ray", "stingray",
        "cock", "hen", "ostrich", "brambling", "goldfinch", "house finch", "junco",
        "indigo bunting", "robin", "bulbul", "jay", "magpie", "chickadee", "water ouzel",
        "kite", "bald eagle", "vulture", "great grey owl"]) from rfl]
  rw [List.filter_cons, if_pos h0, List.filter_cons, if_pos h1]
  simp

/-- Every `generatePrediction` call raises the `ReferenceError` for the
undeclared identifier `i` in its sort comparator. -/
theorem generatePrediction_err (rand : Rand) (seed : ℤ) (adv : Bool) :
    generatePrediction rand seed adv = Except.error (JsError.referenceError "i") := by
  unfold generatePrediction
  rw [if_pos]
  exact two_le_filtered _

/-- A step mutates the state exactly up to the history bookkeeping and then
propagates the `ReferenceError` raised inside `generatePrediction`. -/
theorem runAttack_eq (rand : Rand) (now : ℤ) (s : SimState) :
    runAttack rand now s
      = (stepState rand s, Except.error (JsError.referenceError "i")) := by
  simp only [runAttack, stepState, generatePrediction_err]

/-- Resetting mutates the counters and derived collections and then
propagates the `ReferenceError`, never reaching the prediction fields. -/
theorem resetState_eq (rand : Rand) (s : SimState) :
    resetSimulation rand s
      = ({ s with currentConfidence := 97.2, confidenceHistory := [],
                  attackCount := 0, successCount := 0, seed := 42,
                  attackedNodes := (∅ : Finset (ℤ × ℤ)), attackLog := [] },
         Except.error (JsError.referenceError "i")) := by
  simp only [resetSimulation, generatePrediction_err]

/-- The initialize operation behaves as the reset it delegates to, and
returns the propagated error instead of a snapshot. -/
theorem initEngine_eq (rand : Rand) (s : SimState) :
    initEngine rand s
      = ({ s with currentConfidence := 97.2, confidenceHistory := [],
                  attackCount := 0, successCount := 0, seed := 42,
                  attackedNodes := (∅ : Finset (ℤ × ℤ)), attackLog := [] },
         Except.error (JsError.referenceError "i")) := by
  rw [initEngine, resetState_eq]

theorem calcEff_bump (s : SimState) :
    calculateAttackEffectiveness { s with seed := s.seed + 1, attackCount := s.attackCount + 1 }
      = calculateAttackEffectiveness s := rfl

theorem calcDrop_bump (s : SimState) :
    calculateConfidenceDrop { s with seed := s.seed + 1, attackCount := s.attackCount + 1 }
      = calculateConfidenceDrop s := rfl

/-- Field-level characterisation of the post-step state. -/
theorem stepState_eq (rand : Rand) (s : SimState) :
    stepState rand s = { s with
      seed := s.seed + 1, attackCount := s.attackCount + 1,
      successCount := s.successCount + (if stepSuccess rand s then 1 else 0),
      currentConfidence := stepConfidence rand s,
      confidenceHistory := stepHistory rand s } := by
  simp only [stepState, calcEff_bump, calcDrop_bump]
  cases h : stepSuccess rand s <;>
    simp only [stepSuccess, decide_eq_true_eq] at h <;>
    simp [stepConfidence, stepHistory, stepEntry, stepSuccess, h]

theorem getAttackConfig_cases (k : String) :
    getAttackConfig k = fgsmConfig ∨ getAttackConfig k = pgdConfig ∨
    getAttackConfig k = cwConfig ∨ getAttackConfig k = deepfoolConfig := by
  unfold getAttackConfig ATTACK_CONFIGS
  split_ifs <;> simp

theorem baseSuccessRate_bounds (k : String) :
    (17 : ℚ) / 25 ≤ (getAttackConfig k).baseSuccessRate ∧
    (getAttackConfig k).baseSuccessRate ≤ 23 / 25 := by
  rcases getAttackConfig_cases k with h | h | h | h <;>
    rw [h] <;> norm_num [fgsmConfig, pgdConfig, cwConfig, deepfoolConfig]

theorem baseConfidenceDrop_bounds (k : String) :
    (18 : ℚ) ≤ (getAttackConfig k).baseConfidenceDrop ∧
    (getAttackConfig k).baseConfidenceDrop ≤ 40 := by
  rcases getAttackConfig_cases k with h | h | h | h <;>
    rw [h] <;> norm_num [fgsmConfig, pgdConfig, cwConfig, deepfoolConfig]

/-- The defense multiplier always lies in the interval from 0.1 to 1. -/
theorem getDefenseMultiplier_bounds (d : Defenses) :
    (1 : ℚ) / 10 ≤ getDefenseMultiplier d ∧ getDefenseMultiplier d ≤ 1 := by
  rcases d with ⟨a, b, c, e⟩
  cases a <;> cases b <;> cases c <;> cases e <;>
    norm_num [getDefenseMultiplier, adversarialTrainingConfig, inputPreprocessingConfig,
      defensiveDistillationConfig, featureSqueezingConfig]

/-- One step keeps the confidence within the interval from 5 to 100. -/
theorem stepConfidence_bounds (rand : Rand) (s : SimState)
    (hc5 : 5 ≤ s.currentConfidence) (hc100 : s.currentConfidence ≤ 100)
    (he : 1 / 1000 ≤ s.perturbationLevel) :
    5 ≤ stepConfidence rand s ∧ stepConfidence rand s ≤ 100 := by
  have hdm := getDefenseMultiplier_bounds s.defenses
  have hbd := baseConfidenceDrop_bounds s.currentAttack
  have hem : (0 : ℚ) ≤ min (s.perturbationLevel / 0.03) 2 := by
    apply le_min
    · apply div_nonneg (by linarith) (by norm_num)
    · norm_num
  have hX : (0 : ℚ) ≤ (getAttackConfig s.currentAttack).baseConfidenceDrop *
      getDefenseMultiplier s.defenses * min (s.perturbationLevel / 0.03) 2 := by
    apply mul_nonneg (mul_nonneg (by linarith [hbd.1]) (by linarith [hdm.1])) hem
  have hdrop : calculateConfidenceDrop s
      = min (s.currentConfidence - 10)
          ((getAttackConfig s.currentAttack).baseConfidenceDrop *
            getDefenseMultiplier s.defenses * min (s.perturbationLevel / 0.03) 2) := rfl
  have hdle : calculateConfidenceDrop s ≤ s.currentConfidence - 10 := by
    rw [hdrop]; exact min_le_left _ _
  unfold stepConfidence
  split
  · refine ⟨le_trans (by norm_num) (le_max_left _ _), ?_⟩
    apply max_le (by norm_num)
    rcases le_total (s.currentConfidence - 10)
        ((getAttackConfig s.currentAttack).baseConfidenceDrop *
          getDefenseMultiplier s.defenses * min (s.perturbationLevel / 0.03) 2) with hmin | hmin
    · rw [hdrop, min_eq_left hmin]; linarith
    · rw [hdrop, min_eq_right hmin]; linarith
  · exact ⟨le_min (by norm_num) (by linarith), le_trans (min_le_left _ _) (by norm_num)⟩

theorem engineInv_init : EngineInv initState := by
  norm_num [EngineInv, initState]

theorem stepHistory_length (rand : Rand) (s : SimState)
    (h : s.confidenceHistory.length ≤ 60) : (stepHistory rand s).length ≤ 60 := by
  simp only [stepHistory]
  split
  · rename_i hlen
    simp only [List.length_tail, List.length_append, List.length_cons, List.length_nil] at hlen ⊢
    omega
  · rename_i hlen
    simp only [List.length_append, List.length_cons, List.length_nil] at hlen ⊢
    omega

theorem applyOp_initOp (rand : Rand) (s : SimState) :
    applyOp rand s Op.initOp
      = ({ s with currentConfidence := 97.2, confidenceHistory := [],
                  attackCount := 0, successCount := 0, seed := 42,
                  attackedNodes := (∅ : Finset (ℤ × ℤ)), attackLog := [] }) := by
  rw [applyOp, initEngine_eq]

theorem applyOp_stepOp (rand : Rand) (now : ℤ) (s : SimState) :
    applyOp rand s (Op.stepOp now) = stepState rand s := by
  rw [applyOp, runAttack_eq]

theorem engineInv_applyOp (rand : Rand) (s : SimState) (op : Op) (h : EngineInv s) :
    EngineInv (applyOp rand s op) := by
  obtain ⟨h1, h2, h3, h4, h5⟩ := h
  cases op with
  | initOp =>
    rw [applyOp_initOp]
    exact ⟨by norm_num, by norm_num, h3, h4, by simp⟩
  | setAttackTypeOp id =>
    rw [applyOp]; unfold setAttackType
    split <;> exact ⟨h1, h2, h3, h4, h5⟩
  | setEpsilonOp v =>
    rw [applyOp]; unfold setEpsilon
    have ha : (1 : ℚ) / 1000 ≤ max 0.001 (min 0.1 v) :=
      le_trans (by norm_num) (le_max_left _ _)
    have hb : max 0.001 (min 0.1 v) ≤ (1 : ℚ) / 10 :=
      max_le (by norm_num) (le_trans (min_le_left _ _) (by norm_num))
    exact ⟨h1, h2, ha, hb, h5⟩
  | toggleDefenseOp id =>
    rw [applyOp]; unfold toggleDefense
    split_ifs <;> exact ⟨h1, h2, h3, h4, h5⟩
  | stepOp now =>
    rw [applyOp_stepOp, stepState_eq]
    have hb := stepConfidence_bounds rand s h1 h2 h3
    exact ⟨hb.1, hb.2, h3, h4, stepHistory_length rand s h5⟩

theorem engineInv_runOps (rand : Rand) (ops : List Op) :
    ∀ s : SimState, EngineInv s → EngineInv (runOps rand ops s) := by
  induction ops with
  | nil => exact fun s h => h
  | cons op rest ih =>
    intro s h
    exact ih _ (engineInv_applyOp rand s op h)

/-- The invariant holds in every reachable state. -/
theorem engineInv_reachable (rand : Rand) (s : SimState) (h : Reachable rand s) :
    EngineInv s := by
  obtain ⟨ops, rfl⟩ := h
  exact engineInv_runOps rand ops initState engineInv_init

/-- The double epsilon cap of the source collapses: capping at 3 and then at
2 equals capping at 2 directly. -/
theorem calcEff_eq (s : SimState) :
    calculateAttackEffectiveness s
      = min 0.98 ((getAttackConfig s.currentAttack).baseSuccessRate *
          getDefenseMultiplier s.defenses * min (s.perturbationLevel / 0.03) 2) := by
  simp only [calculateAttackEffectiveness]
  rw [min_assoc, show ((3 : ℚ) ⊓ 2) = 2 from by norm_num]

/-- The defense multiplier equals the product over enabled defenses of
one minus 0.4 times the base effectiveness, floored at 0.1. -/
theorem defMult_product_form (d : Defenses) :
    getDefenseMultiplier d
      = max 0.1 ((if d.adversarialTraining then 1 - 0.78 * 0.4 else 1) *
          (if d.inputPreprocessing then 1 - 0.45 * 0.4 else 1) *
          (if d.defensiveDistillation then 1 - 0.62 * 0.4 else 1) *
          (if d.featureSqueezing then 1 - 0.55 * 0.4 else 1)) := by
  rcases d with ⟨a, b, c, e⟩
  cases a <;> cases b <;> cases c <;> cases e <;>
    norm_num [getDefenseMultiplier, adversarialTrainingConfig, inputPreprocessingConfig,
      defensiveDistillationConfig, featureSqueezingConfig]

/-- Enabling additional defenses never increases the multiplier. -/
theorem defMult_mono (d d' : Defenses)
    (h1 : d.adversarialTraining = true → d'.adversarialTraining = true)
    (h2 : d.inputPreprocessing = true → d'.inputPreprocessing = true)
    (h3 : d.defensiveDistillation = true → d'.defensiveDistillation = true)
    (h4 : d.featureSqueezing = true → d'.featureSqueezing = true) :
    getDefenseMultiplier d' ≤ getDefenseMultiplier d := by
  have fact : ∀ (b b' : Bool) (c : ℚ), 0 < c → c ≤ 1 → (b = true → b' = true) →
      ((if b' then c else 1) ≤ (if b then c else 1)) ∧
      (0 < (if b' then c else 1)) ∧
      (0 < (if b then c else 1)) := by
    intro b b' c hc0 hc1 hbb
    cases b <;> cases b' <;> simp_all
  obtain ⟨l1, p1', p1⟩ := fact d.adversarialTraining d'.adversarialTraining
    (1 - 0.78 * 0.4) (by norm_num) (by norm_num) h1
  obtain ⟨l2, p2', p2⟩ := fact d.inputPreprocessing d'.inputPreprocessing
    (1 - 0.45 * 0.4) (by norm_num) (by norm_num) h2
  obtain ⟨l3, p3', p3⟩ := fact d.defensiveDistillation d'.defensiveDistillation
    (1 - 0.62 * 0.4) (by norm_num) (by norm_num) h3
  obtain ⟨l4, p4', p4⟩ := fact d.featureSqueezing d'.featureSqueezing
    (1 - 0.55 * 0.4) (by norm_num) (by norm_num) h4
  rw [defMult_product_form, defMult_product_form]
  apply max_le_max le_rfl
  have m12 := mul_le_mul l1 l2 p2'.le p1.le
  have m123 := mul_le_mul m12 l3 p3'.le (mul_pos p1 p2).le
  exact mul_le_mul m123 l4 p4'.le (mul_pos (mul_pos p1 p2) p3).le

/-- With a positive perturbation level, enabling all four defenses gives a
strictly lower attack effectiveness than enabling none. -/
theorem calcEff_all_lt_none (s : SimState)
    (he1 : 1 / 1000 ≤ s.perturbationLevel) :
    calculateAttackEffectiveness { s with defenses := ⟨true, true, true, true⟩ }
      < calculateAttackEffectiveness { s with defenses := ⟨false, false, false, false⟩ } := by
  have hb := baseSuccessRate_bounds s.currentAttack
  have hallm : getDefenseMultiplier ⟨true, true, true, true⟩ = 3231579 / 9765625 := by
    norm_num [getDefenseMultiplier, adversarialTrainingConfig, inputPreprocessingConfig,
      defensiveDistillationConfig, featureSqueezingConfig]
  have hnonem : getDefenseMultiplier ⟨false, false, false, false⟩ = 1 := by
    norm_num [getDefenseMultiplier]
  have hA : calculateAttackEffectiveness { s with defenses := ⟨true, true, true, true⟩ }
      = min 0.98 ((getAttackConfig s.currentAttack).baseSuccessRate *
          (3231579 / 9765625) * min (s.perturbationLevel / 0.03) 2) := by
    rw [calcEff_eq]; rw [show ({ s with defenses := (⟨true, true, true, true⟩ : Defenses) } : SimState).defenses = ⟨true, true, true, true⟩ from rfl, hallm]
  have hB : calculateAttackEffectiveness { s with defenses := ⟨false, false, false, false⟩ }
      = min 0.98 ((getAttackConfig s.currentAttack).baseSuccessRate *
          min (s.perturbationLevel / 0.03) 2) := by
    rw [calcEff_eq]; rw [show ({ s with defenses := (⟨false, false, false, false⟩ : Defenses) } : SimState).defenses = ⟨false, false, false, false⟩ from rfl, hnonem, mul_one]
  rw [hA, hB]
  set base := (getAttackConfig s.currentAttack).baseSuccessRate with hbase
  set em := min (s.perturbationLevel / 0.03) 2 with hem
  have hem1 : (1 : ℚ) / 30 ≤ em := by
    apply le_min
    · rw [div_le_div_iff₀] <;> [linarith; norm_num; norm_num]
    · norm_num
  have hem2 : em ≤ 2 := min_le_right _ _
  have hprod : base * (3231579 / 9765625) * em < base * em := by
    have hpos : 0 < base * em := mul_pos (by linarith [hb.1]) (by linarith)
    nlinarith [hb.1, hb.2, hem1, hem2]
  have hlt98 : base * (3231579 / 9765625) * em < 0.98 := by
    nlinarith [hb.1, hb.2, hem1, hem2]
  rw [min_eq_right hlt98.le]
  exact lt_min hlt98 hprod

theorem runOps_append_one (rand : Rand) (ops : List Op) (op : Op) (s : SimState) :
    runOps rand (ops ++ [op]) s = applyOp rand (runOps rand ops s) op := by
  unfold runOps
  rw [List.foldl_append]
  rfl

/-- Driving the engine with n steps from an empty history produces history
times counting up from the initial attack count plus one. -/
theorem steps_history (rand : Rand) :
    ∀ (n : ℕ) (s : SimState), s.confidenceHistory = [] → n ≤ 60 →
      ((runOps rand (List.replicate n (Op.stepOp 0)) s).confidenceHistory.map
          (fun e => e.time) = List.range' (s.attackCount + 1) n)
      ∧ (runOps rand (List.replicate n (Op.stepOp 0)) s).attackCount
          = s.attackCount + n := by
  intro n
  induction n with
  | zero =>
    intro s h0 _
    constructor
    · simp [runOps, h0]
    · simp [runOps]
  | succ n ih =>
    intro s h0 hn
    obtain ⟨ih1, ih2⟩ := ih s h0 (by omega)
    have hsplit : runOps rand (List.replicate (n + 1) (Op.stepOp 0)) s
        = applyOp rand (runOps rand (List.replicate n (Op.stepOp 0)) s) (Op.stepOp 0) := by
      rw [List.replicate_succ', runOps_append_one]
    set s' := runOps rand (List.replicate n (Op.stepOp 0)) s with hs'
    have hlen : s'.confidenceHistory.length = n := by
      have := congrArg List.length ih1
      simpa using this
    have hstep : applyOp rand s' (Op.stepOp 0) = stepState rand s' := applyOp_stepOp rand 0 s'
    have hhist : (stepState rand s').confidenceHistory
        = s'.confidenceHistory ++ [stepEntry rand s'] := by
      rw [stepState_eq]
      show stepHistory rand s' = _
      simp only [stepHistory]
      rw [if_neg]
      simp [hlen]
      omega
    have hac : (stepState rand s').attackCount = s'.attackCount + 1 := by
      rw [stepState_eq]
    constructor
    · rw [hsplit, hstep, hhist]
      rw [List.map_append, ih1]
      have : (List.map (fun e => e.time) [stepEntry rand s']) = [s.attackCount + 1 + n] := by
        simp [stepEntry, ih2]
        omega
      rw [this]
      have hconcat : List.range' (s.attackCount + 1) (n + 1)
          = List.range' (s.attackCount + 1) n ++ [s.attackCount + 1 + 1 * n] :=
        List.range'_concat (s.attackCount + 1) n
      rw [show s.attackCount + 1 + 1 * n = s.attackCount + 1 + n from by omega] at hconcat
      exact hconcat.symm
    · rw [hsplit, hstep, hac, ih2]
      omega

theorem stepState_frame (rand : Rand) (s : SimState) :
    (stepState rand s).currentAttack = s.currentAttack ∧
    (stepState rand s).defenses = s.defenses ∧
    (stepState rand s).perturbationLevel = s.perturbationLevel ∧
    (stepState rand s).attackedNodes = s.attackedNodes ∧
    (stepState rand s).currentConfidence = stepConfidence rand s := by
  rw [stepState_eq]
  exact ⟨rfl, rfl, rfl, rfl, rfl⟩

theorem calcEff_default (s : SimState) (ha : s.currentAttack = "fgsm")
    (hd : s.defenses = ⟨false, true, false, true⟩)
    (he : s.perturbationLevel = 3 / 100) :
    calculateAttackEffectiveness s = 4797 / 10000 := by
  rw [calcEff_eq, ha, hd, he]
  norm_num [getAttackConfig, ATTACK_CONFIGS, fgsmConfig, getDefenseMultiplier,
    adversarialTrainingConfig, inputPreprocessingConfig, defensiveDistillationConfig,
    featureSqueezingConfig]

theorem calcDrop_default (s : SimState) (ha : s.currentAttack = "fgsm")
    (hd : s.defenses = ⟨false, true, false, true⟩)
    (he : s.perturbationLevel = 3 / 100)
    (hc : (1599 : ℚ) / 100 ≤ s.currentConfidence - 10) :
    calculateConfidenceDrop s = 1599 / 100 := by
  simp only [calculateConfidenceDrop]
  rw [ha, hd, he]
  have hX : (getAttackConfig "fgsm").baseConfidenceDrop *
      getDefenseMultiplier ⟨false, true, false, true⟩ * min ((3 : ℚ) / 100 / 0.03) 2
      = 1599 / 100 := by
    norm_num [getAttackConfig, ATTACK_CONFIGS, fgsmConfig, getDefenseMultiplier,
      adversarialTrainingConfig, inputPreprocessingConfig, defensiveDistillationConfig,
      featureSqueezingConfig]
  rw [hX]
  exact min_eq_right hc

theorem stepConfidence_default (rand : Rand) (s : SimState)
    (hr : rand (s.seed + 1) = 0)
    (ha : s.currentAttack = "fgsm")
    (hd : s.defenses = ⟨false, true, false, true⟩)
    (he : s.perturbationLevel = 3 / 100)
    (hc : (3099 : ℚ) / 100 ≤ s.currentConfidence) :
    stepConfidence rand s = s.currentConfidence - 1599 / 100 := by
  have hdrop : calculateConfidenceDrop s = 1599 / 100 :=
    calcDrop_default s ha hd he (by linarith)
  have heff : calculateAttackEffectiveness s = 4797 / 10000 := calcEff_default s ha hd he
  have hsucc : stepSuccess rand s = true := by
    simp only [stepSuccess, hr, heff, decide_eq_true_eq]
    norm_num
  rw [stepConfidence, hsucc, hdrop]
  simp only [if_true]
  rw [max_eq_right]
  linarith

/-- C1: the claim says `initialize()` and `step()` have no error conditions
and always succeed.  In fact both throw a `ReferenceError` on every call:
the sort comparator inside `generatePrediction` reads the undeclared
variable `i`, and both operations reach that comparator unconditionally. -/
theorem c1_operations_throw (rand : Rand) (now : ℤ) (s : SimState) :
    (initEngine rand s).2 = Except.error (JsError.referenceError "i") ∧
    (runAttack rand now s).2 = Except.error (JsError.referenceError "i") := by
  rw [initEngine_eq, runAttack_eq]
  exact ⟨rfl, rfl⟩

/-- C2: two engines initialized from the same module state with the same
seed constant and driven by the same sequence of configuration and step
calls produce identical observation traces — step outcomes, confidence
histories and attacked-node sets. -/
theorem c2_determinism (rand : Rand) (ops : List Op) (e1 e2 : SimState)
    (h1 : e1 = (initEngine rand initState).1) (h2 : e2 = (initEngine rand initState).1) :
    runTrace rand ops e1 = runTrace rand ops e2 := by
  rw [h1, h2]

/-- Witness instantiating the determinism theorem on a concrete run. -/
theorem c2_witness :
    runTrace (fun _ => 0) [Op.stepOp 0] ((initEngine (fun _ => 0) initState).1)
      = runTrace (fun _ => 0) [Op.stepOp 0] ((initEngine (fun _ => 0) initState).1) :=
  c2_determinism (fun _ => 0) [Op.stepOp 0] _ _ rfl rfl

/-- C3: in every state reachable by any sequence of initialize,
setAttackType, setEpsilon, toggleDefense and step calls, the current
confidence lies in the interval from 5 to 100. -/
theorem c3_confidence_in_range (rand : Rand) (s : SimState) (h : Reachable rand s) :
    5 ≤ s.currentConfidence ∧ s.currentConfidence ≤ 100 := by
  have hi := engineInv_reachable rand s h
  exact ⟨hi.1, hi.2.1⟩

/-- Witness instantiating the confidence bound at the initial state. -/
theorem c3_witness :
    5 ≤ initState.currentConfidence ∧ initState.currentConfidence ≤ 100 :=
  c3_confidence_in_range (fun _ => 0) initState ⟨[], rfl⟩

/-- C4 counterexample: contrary to the claim, the camelCase defense id
"adversarialTraining" does not flip its toggle — `toggleDefense` keys on
display names, so the id falls through to the no-op branch returning false
(flipping the initially false toggle would have returned true). -/
theorem c4_counterexample :
    toggleDefense "adversarialTraining" initState = (initState, false) ∧
    initState.defenses.adversarialTraining = false := by
  exact ⟨rfl, rfl⟩

/-- C4 (amended): `toggleDefense` recognises exactly the four display names
"Adversarial Training", "Input Preprocessing", "Defensive Distillation" and
"Feature Squeezing", flipping the corresponding boolean and returning its
new value; every other string — including the camelCase ids — leaves the
state unchanged and returns false. -/
theorem c4_toggleDefense_displayNames (s : SimState) (name : String)
    (h : name ∉ ["Adversarial Training", "Input Preprocessing",
                 "Defensive Distillation", "Feature Squeezing"]) :
    (toggleDefense "Adversarial Training" s
      = ({ s with defenses :=
            { s.defenses with adversarialTraining := !s.defenses.adversarialTraining } },
         !s.defenses.adversarialTraining)) ∧
    (toggleDefense "Input Preprocessing" s
      = ({ s with defenses :=
            { s.defenses with inputPreprocessing := !s.defenses.inputPreprocessing } },
         !s.defenses.inputPreprocessing)) ∧
    (toggleDefense "Defensive Distillation" s
      = ({ s with defenses :=
            { s.defenses with defensiveDistillation := !s.defenses.defensiveDistillation } },
         !s.defenses.defensiveDistillation)) ∧
    (toggleDefense "Feature Squeezing" s
      = ({ s with defenses :=
            { s.defenses with featureSqueezing := !s.defenses.featureSqueezing } },
         !s.defenses.featureSqueezing)) ∧
    toggleDefense name s = (s, false) := by
  refine ⟨rfl, rfl, rfl, rfl, ?_⟩
  simp only [List.mem_cons, List.not_mem_nil, or_false, not_or] at h
  obtain ⟨h1, h2, h3, h4⟩ := h
  unfold toggleDefense
  rw [if_neg h1, if_neg h2, if_neg h3, if_neg h4]

/-- Witness instantiating the unknown-name branch at a concrete string. -/
theorem c4_witness :
    ("nonsense" ∉ ["Adversarial Training", "Input Preprocessing",
                   "Defensive Distillation", "Feature Squeezing"]) ∧
    toggleDefense "nonsense" initState = (initState, false) := by
  refine ⟨by decide, ?_⟩
  exact (c4_toggleDefense_displayNames initState "nonsense" (by decide)).2.2.2.2

/-- C5: the attack effectiveness used by a step equals the active attack
base success rate times the defense multiplier times the epsilon multiplier
capped at 2, the whole capped at 0.98; and the step counts a success exactly
when the pseudo-random draw for the incremented seed is strictly below that
effectiveness. -/
theorem c5_effectiveness_and_success (rand : Rand) (now : ℤ) (s : SimState) :
    calculateAttackEffectiveness s
      = min 0.98 ((getAttackConfig s.currentAttack).baseSuccessRate *
          getDefenseMultiplier s.defenses * min (s.perturbationLevel / 0.03) 2) ∧
    (runAttack rand now s).1.successCount
      = (if rand (s.seed + 1) < calculateAttackEffectiveness s
         then s.successCount + 1 else s.successCount) := by
  refine ⟨calcEff_eq s, ?_⟩
  have h1 : (runAttack rand now s).1 = stepState rand s := by rw [runAttack_eq]
  rw [h1, stepState_eq]
  simp only [stepSuccess, decide_eq_true_eq]
  split <;> simp

/-- C6: the defense multiplier equals the product over enabled defenses of
one minus base effectiveness times 0.4, floored at 0.1; it is bounded below
by 0.1, monotonically non-increasing as more defenses are enabled, and
enabling all four defenses yields strictly lower attack effectiveness than
enabling none. -/
theorem c6_defense_stacking :
    (∀ d : Defenses, getDefenseMultiplier d
        = max 0.1 ((if d.adversarialTraining then 1 - 0.78 * 0.4 else 1) *
            (if d.inputPreprocessing then 1 - 0.45 * 0.4 else 1) *
            (if d.defensiveDistillation then 1 - 0.62 * 0.4 else 1) *
            (if d.featureSqueezing then 1 - 0.55 * 0.4 else 1))) ∧
    (∀ d : Defenses, 0.1 ≤ getDefenseMultiplier d) ∧
    (∀ d d' : Defenses,
      (d.adversarialTraining = true → d'.adversarialTraining = true) →
      (d.inputPreprocessing = true → d'.inputPreprocessing = true) →
      (d.defensiveDistillation = true → d'.defensiveDistillation = true) →
      (d.featureSqueezing = true → d'.featureSqueezing = true) →
      getDefenseMultiplier d' ≤ getDefenseMultiplier d) ∧
    (∀ s : SimState, 1 / 1000 ≤ s.perturbationLevel →
      calculateAttackEffectiveness { s with defenses := ⟨true, true, true, true⟩ }
        < calculateAttackEffectiveness { s with defenses := ⟨false, false, false, false⟩ }) := by
  refine ⟨defMult_product_form, ?_, defMult_mono, calcEff_all_lt_none⟩
  intro d
  have := getDefenseMultiplier_bounds d
  exact le_trans (by norm_num) this.1

/-- Witness instantiating monotonicity and strictness at concrete toggle
configurations. -/
theorem c6_witness :
    getDefenseMultiplier ⟨true, true, true, true⟩
        ≤ getDefenseMultiplier ⟨false, false, false, false⟩ ∧
    calculateAttackEffectiveness { initState with defenses := ⟨true, true, true, true⟩ }
        < calculateAttackEffectiveness { initState with defenses := ⟨false, false, false, false⟩ } :=
  ⟨c6_defense_stacking.2.2.1 ⟨false, false, false, false⟩ ⟨true, true, true, true⟩
      (fun h => by simp_all) (fun _ => rfl) (fun h => by simp_all) (fun _ => rfl),
   c6_defense_stacking.2.2.2 initState (by norm_num [initState])⟩

/-- C7: setEpsilon stores its argument clamped into the interval from 0.001
to 0.1 and never fails; in particular 999 clamps to 0.1 and -5 clamps to
0.001. -/
theorem c7_setEpsilon_clamps (v : ℚ) (s : SimState) :
    setEpsilon v s = { s with perturbationLevel := max 0.001 (min 0.1 v) } ∧
    1 / 1000 ≤ (setEpsilon v s).perturbationLevel ∧
    (setEpsilon v s).perturbationLevel ≤ 1 / 10 ∧
    (setEpsilon 999 s).perturbationLevel = 0.1 ∧
    (setEpsilon (-5) s).perturbationLevel = 0.001 := by
  refine ⟨rfl, le_trans (by norm_num) (le_max_left _ _),
    max_le (by norm_num) (le_trans (min_le_left _ _) (by norm_num)), ?_, ?_⟩
  · show max 0.001 (min 0.1 (999 : ℚ)) = 0.1
    norm_num
  · show max 0.001 (min 0.1 (-5 : ℚ)) = 0.001
    norm_num

/-- C8: the confidence history is append-only with oldest-first eviction
and never exceeds 60 entries; after 60 steps from a fresh initialize its
length is exactly 60 and the time field of the oldest retained entry equals
the attack count minus 59. -/
theorem c8_history_bounded :
    (∀ (rand : Rand) (s : SimState), Reachable rand s → s.confidenceHistory.length ≤ 60) ∧
    (∀ (rand : Rand) (now : ℤ) (s : SimState),
      (runAttack rand now s).1.confidenceHistory
        = if 60 < s.confidenceHistory.length + 1
          then (s.confidenceHistory ++ [stepEntry rand s]).tail
          else s.confidenceHistory ++ [stepEntry rand s]) ∧
    (∀ rand : Rand,
      ((runOps rand (List.replicate 60 (Op.stepOp 0))
          ((initEngine rand initState).1)).confidenceHistory).length = 60 ∧
      (((runOps rand (List.replicate 60 (Op.stepOp 0))
          ((initEngine rand initState).1)).confidenceHistory).head?).map (fun e => e.time)
        = some ((runOps rand (List.replicate 60 (Op.stepOp 0))
            ((initEngine rand initState).1)).attackCount - 59)) := by
  refine ⟨?_, ?_, ?_⟩
  · intro rand s h
    exact (engineInv_reachable rand s h).2.2.2.2
  · intro rand now s
    have h1 : (runAttack rand now s).1 = stepState rand s := by rw [runAttack_eq]
    rw [h1, stepState_eq]
    show stepHistory rand s = _
    simp only [stepHistory, List.length_append, List.length_cons, List.length_nil]
  · intro rand
    have hinit : ((initEngine rand initState).1).confidenceHistory = [] := by
      rw [initEngine_eq]
    have hac : ((initEngine rand initState).1).attackCount = 0 := by
      rw [initEngine_eq]
    obtain ⟨hmap, hcount⟩ := steps_history rand 60 ((initEngine rand initState).1) hinit
      (by omega)
    rw [hac] at hmap hcount
    constructor
    · have := congrArg List.length hmap
      simpa using this
    · rw [hcount]
      have hh : (((runOps rand (List.replicate 60 (Op.stepOp 0))
          ((initEngine rand initState).1)).confidenceHistory).map (fun e => e.time)).head?
          = (List.range' 1 60).head? := by rw [hmap]
      rw [List.head?_map] at hh
      rw [hh]
      rw [List.range'_succ]
      rfl

/-- Witness instantiating the history length bound at the initial state. -/
theorem c8_witness : initState.confidenceHistory.length ≤ 60 :=
  c8_history_bounded.1 (fun _ => 0) initState ⟨[], rfl⟩

/-- C9: the claim says each step recomputes the attacked-node set from the
current confidence.  In fact `updateAttackedNodes` sits after the throwing
`generatePrediction` calls inside `runAttack`, so a step never changes the
set: concretely, two steps from a fresh engine under the all-zero generator
drive the confidence to 65.22, where the claim demands 13 attacked nodes,
yet the set is still empty. -/
theorem c9_attackedNodes_stale :
    (∀ (rand : Rand) (now : ℤ) (s : SimState),
        (runAttack rand now s).1.attackedNodes = s.attackedNodes) ∧
    ((runOps (fun _ => 0) [Op.stepOp 0, Op.stepOp 0]
        ((initEngine (fun _ => 0) initState).1)).currentConfidence = 3261 / 50 ∧
     (3261 / 50 : ℚ) ≤ 80 ∧
     (runOps (fun _ => 0) [Op.stepOp 0, Op.stepOp 0]
        ((initEngine (fun _ => 0) initState).1)).attackedNodes.card = 0 ∧
     (⌊(1 - (3261 / 50 : ℚ) / 100) * 25 + 5⌋ : ℤ) = 13) := by
  constructor
  · intro rand now s
    have h1 : (runAttack rand now s).1 = stepState rand s := by rw [runAttack_eq]
    rw [h1]
    exact (stepState_frame rand s).2.2.2.1
  · have hs0 : (initEngine (fun _ => 0) initState).1 = initState := by
      rw [initEngine_eq]
      rfl
    have hrun : runOps (fun _ => 0) [Op.stepOp 0, Op.stepOp 0] initState
        = stepState (fun _ => 0) (stepState (fun _ => 0) initState) := by
      show applyOp (fun _ => 0)
        (applyOp (fun _ => 0) initState (Op.stepOp 0)) (Op.stepOp 0) = _
      rw [applyOp_stepOp, applyOp_stepOp]
    have f1 := stepState_frame (fun _ => 0) initState
    have hc1 : stepConfidence (fun _ => 0) initState = 8121 / 100 := by
      rw [stepConfidence_default (fun _ => 0) initState rfl rfl rfl
        (by norm_num [initState]) (by norm_num [initState])]
      norm_num [initState]
    have f2 := stepState_frame (fun _ => 0) (stepState (fun _ => 0) initState)
    have hc2 : stepConfidence (fun _ => 0) (stepState (fun _ => 0) initState)
        = 3261 / 50 := by
      rw [stepConfidence_default (fun _ => 0) (stepState (fun _ => 0) initState)
        rfl f1.1 f1.2.1 (by rw [f1.2.2.1]; norm_num [initState])
        (by rw [f1.2.2.2.2, hc1]; norm_num)]
      rw [f1.2.2.2.2, hc1]
      norm_num
    refine ⟨?_, by norm_num, ?_, ?_⟩
    · rw [hs0, hrun, f2.2.2.2.2, hc2]
    · rw [hs0, hrun, f2.2.2.2.1, f1.2.2.2.1]
      rfl
    · rw [show (1 - (3261 / 50 : ℚ) / 100) * 25 + 5 = 2739 / 200 from by norm_num]
      rw [Int.floor_eq_iff]
      norm_num

/-- C10: reset leaves epsilon, the selected attack and the defense toggles
untouched and resets confidence, history, counters, seed, attacked nodes and
log to their defaults; but contrary to the claim the prediction fields are
not regenerated — the `ReferenceError` inside `generatePrediction` fires
before they are assigned, so they too stay unchanged. -/
theorem c10_reset_frame (rand : Rand) (s : SimState) :
    ((resetSimulation rand s).1.perturbationLevel = s.perturbationLevel ∧
     (resetSimulation rand s).1.currentAttack = s.currentAttack ∧
     (resetSimulation rand s).1.defenses = s.defenses) ∧
    ((resetSimulation rand s).1.currentConfidence = 97.2 ∧
     (resetSimulation rand s).1.confidenceHistory = [] ∧
     (resetSimulation rand s).1.attackCount = 0 ∧
     (resetSimulation rand s).1.successCount = 0 ∧
     (resetSimulation rand s).1.seed = 42 ∧
     (resetSimulation rand s).1.attackedNodes = ∅ ∧
     (resetSimulation rand s).1.attackLog = []) ∧
    ((resetSimulation rand s).1.currentPrediction = s.currentPrediction ∧
     (resetSimulation rand s).1.adversarialPrediction = s.adversarialPrediction ∧
     (resetSimulation rand s).1.predictions = s.predictions ∧
     (resetSimulation rand s).2 = Except.error (JsError.referenceError "i")) := by
  rw [resetState_eq]
  exact ⟨⟨rfl, rfl, rfl⟩, ⟨rfl, rfl, rfl, rfl, rfl, rfl, rfl⟩, ⟨rfl, rfl, rfl, rfl⟩⟩

end AdversarialX
